import Mathlib

/-!
Shallow embedding of `src/server.js` (Trade Copier API).

The server keeps two in-memory structures:
* `signals` — an append-only array of signal records (the Signal Log);
* `executedBySlave` — a `Map` from slave id to the `Set` of signal ids that
  slave has acknowledged (the Delivery Tracker).

JavaScript `Map`s preserve insertion order and `Set`s are modelled as
duplicate-free lists in insertion order.  Request-body values are modelled by
`Field` (JSON scalars plus `undefined` for an absent key); JS truthiness,
`parseFloat`, `Number(...)` and string interpolation are modelled explicitly.
-/

set_option autoImplicit false

namespace TradeCopier

/-- A JSON scalar value of a request-body field: `absent` stands for a key
that is missing (`undefined` when destructured), `null` for JSON null,
`str` for a string and `num` for a JSON number (JSON numbers carry no NaN,
so a rational suffices). -/
inductive Field where
  | absent
  | null
  | str (s : String)
  | num (q : Rat)
deriving DecidableEq, Repr

/-- JS truthiness of a field value: `undefined`, `null`, the empty string and
`0` are falsy; every other string or number is truthy. -/
def Field.truthy : Field → Bool
  | .absent => false
  | .null => false
  | .str s => decide (s ≠ "")
  | .num q => decide (q ≠ 0)

/-- Parse a maximal run of decimal digits at the front of a character list,
returning the accumulated value, the number of digits consumed and the rest. -/
def parseNatAux : List Char → Nat → Nat → Nat × Nat × List Char
  | [], acc, n => (acc, n, [])
  | c :: rest, acc, n =>
    if '0' ≤ c ∧ c ≤ '9' then parseNatAux rest (acc * 10 + (c.toNat - 48)) (n + 1)
    else (acc, n, c :: rest)

/-- Model of JS `parseFloat` on a string: an optional sign followed by decimal
digits with an optional fractional part; the longest valid prefix is parsed
and trailing characters are ignored; `none` models NaN (no digits at all). -/
def parseFloatStr (s : String) : Option Rat :=
  let p := match s.data with
    | '-' :: r => ((-1 : Rat), r)
    | '+' :: r => ((1 : Rat), r)
    | r => ((1 : Rat), r)
  let ip := parseNatAux p.2 0 0
  let fp := match ip.2.2 with
    | '.' :: r => parseNatAux r 0 0
    | r => (0, 0, r)
  if ip.2.1 = 0 ∧ fp.2.1 = 0 then none
  else some (p.1 * ((ip.1 : Rat) + (fp.1 : Rat) / ((10 : Rat) ^ fp.2.1)))

/-- Model of JS `parseFloat` on a field value: numbers parse to themselves,
`undefined` and `null` (strings "undefined"/"null") give NaN, strings are
parsed by `parseFloatStr`.  `none` models NaN. -/
def jsParseFloat : Field → Option Rat
  | .absent => none
  | .null => none
  | .num q => some q
  | .str s => parseFloatStr s

/-- Model of JS `Number(...)` coercion: `undefined` gives NaN (`none`),
`null` gives 0, the empty or all-invalid string gives NaN except that `""`
coerces to 0; a string must consist entirely of the numeral to parse. -/
def jsToNumber : Field → Option Rat
  | .absent => none
  | .null => some 0
  | .num q => some q
  | .str s =>
    if s = "" then some 0
    else
      let p := match s.data with
        | '-' :: r => ((-1 : Rat), r)
        | '+' :: r => ((1 : Rat), r)
        | r => ((1 : Rat), r)
      let ip := parseNatAux p.2 0 0
      let fp := match ip.2.2 with
        | '.' :: r => parseNatAux r 0 0
        | r => (0, 0, r)
      if (ip.2.1 = 0 ∧ fp.2.1 = 0) ∨ fp.2.2 ≠ [] then none
      else some (p.1 * ((ip.1 : Rat) + (fp.1 : Rat) / ((10 : Rat) ^ fp.2.1)))

/-- Model of JS `String(...)` / template-literal coercion of a field value. -/
def jsToString : Field → String
  | .absent => "undefined"
  | .null => "null"
  | .str s => s
  | .num q => toString q

/-- Model of the JS idiom `parseFloat(x) || d`: NaN and 0 are falsy, so both
fall through to the default `d`. -/
def jsOr (x : Option Rat) (d : Rat) : Rat :=
  match x with
  | none => d
  | some q => if q = 0 then d else q

/-- A stored signal record, as built by the `POST /signal` handler.
`ticket` is `Number(ticket)` (`none` models NaN); `type` and `action` are
stored as the raw request values. -/
structure Signal where
  id : String
  master_id : String
  ticket : Option Rat
  symbol : String
  type : Field
  lot : Rat
  open_price : Rat
  sl : Rat
  tp : Rat
  action : Field
  created_at : String
deriving DecidableEq, Repr

/-- The request body of `POST /signal`, destructured into its nine fields. -/
structure SignalRequest where
  master_id : Field
  ticket : Field
  symbol : Field
  type : Field
  lot : Field
  open_price : Field
  sl : Field
  tp : Field
  action : Field
deriving DecidableEq, Repr

/-- The whole in-memory server state: the signal log `signals` and the
delivery tracker `executedBySlave` (a `Map` from slave id to a `Set` of
acknowledged signal-id values, both in insertion order). -/
structure ServerState where
  signals : List Signal
  executedBySlave : List (String × List Field)
deriving DecidableEq, Repr

/-- The state at server start: no signals, no tracker entries. -/
def initialState : ServerState := ⟨[], []⟩

/-- Boolean membership in a list of field values (JS `Set.prototype.has`). -/
def fmem (v : Field) : List Field → Bool
  | [] => false
  | w :: rest => if w = v then true else fmem v rest

/-- JS `Set.prototype.add`: append the value unless it is already present. -/
def setAdd (s : List Field) (v : Field) : List Field :=
  if fmem v s then s else s ++ [v]

/-- JS `Map.prototype.get` on the tracker: the first (only) entry with the
given key, if any. -/
def mapFind (m : List (String × List Field)) (k : String) : Option (List Field) :=
  match m with
  | [] => none
  | e :: rest => if e.1 = k then some e.2 else mapFind rest k

/-- Combined effect of `markAsExecuted`'s `Map` manipulation: insert a fresh
singleton entry at the end when the key is new (JS `Map.set` of a new key),
otherwise add the value to the existing entry's set in place. -/
def mapAdd (m : List (String × List Field)) (k : String) (v : Field) :
    List (String × List Field) :=
  match m with
  | [] => [(k, [v])]
  | e :: rest => if e.1 = k then (e.1, setAdd e.2 v) :: rest else e :: mapAdd rest k v

/-- `markAsExecuted(slaveId, signalId)`: record that a slave executed a
signal; creates the slave's set on first use. -/
def markAsExecuted (st : ServerState) (slaveId : String) (signalId : Field) :
    ServerState :=
  { st with executedBySlave := mapAdd st.executedBySlave slaveId signalId }

/-- `wasExecuted(slaveId, signalId)`: whether the tracker has an entry for the
slave whose set contains the (string) signal id. -/
def wasExecuted (st : ServerState) (slaveId : String) (signalId : String) : Bool :=
  match mapFind st.executedBySlave slaveId with
  | some s => fmem (Field.str signalId) s
  | none => false

/-- `getPendingSignals(slaveId)`: the log filtered down to signals the slave
has not executed, preserving log order. -/
def getPendingSignals (st : ServerState) (slaveId : String) : List Signal :=
  st.signals.filter (fun s => !(wasExecuted st slaveId s.id))

/-- The slave's acknowledgment set as an abstract list of values (empty when
the tracker has no entry for the slave). -/
def ackSet (st : ServerState) (slaveId : String) : List Field :=
  (mapFind st.executedBySlave slaveId).getD []

/-- `['OPEN','CLOSE','MODIFY'].includes(action)`: strict equality against the
three string literals, so a non-string action never matches. -/
def validAction : Field → Bool
  | .str a => decide (a = "OPEN" ∨ a = "CLOSE" ∨ a = "MODIFY")
  | _ => false

/-- `generateSignalId(req.body)`: the template literal over the raw request
fields plus the `Date.now()` timestamp, passed in as the string `ts`. -/
def generateSignalId (req : SignalRequest) (ts : String) : String :=
  "sig_" ++ jsToString req.master_id ++ "_" ++ jsToString req.ticket ++ "_" ++
    jsToString req.action ++ "_" ++ ts

/-- The signal object literal built by the `POST /signal` handler after
validation; `ts` is the `Date.now()` value interpolated into the id and
`nowIso` the `new Date().toISOString()` value. -/
def makeSignal (req : SignalRequest) (ts : String) (nowIso : String) : Signal :=
  { id := generateSignalId req ts
  , master_id := jsToString req.master_id
  , ticket := jsToNumber req.ticket
  , symbol := jsToString req.symbol
  , type := if req.type.truthy then req.type else .str "BUY"
  , lot := jsOr (jsParseFloat req.lot) (1 / 100)
  , open_price := jsOr (jsParseFloat req.open_price) 0
  , sl := jsOr (jsParseFloat req.sl) 0
  , tp := jsOr (jsParseFloat req.tp) 0
  , action := req.action
  , created_at := nowIso }

/-- Response of `POST /signal`: HTTP status, the `success` flag and the
optional `signal_id` / `error` body members. -/
structure PostSignalResp where
  status : Nat
  success : Bool
  signal_id : Option String
  error : Option String
deriving DecidableEq, Repr

/-- The `POST /signal` handler: validates the presence (truthiness) of
`master_id`, `ticket`, `symbol` and `action`, then that `action` is one of
OPEN/CLOSE/MODIFY, then appends the constructed signal to the log. -/
def postSignal (st : ServerState) (req : SignalRequest) (ts : String)
    (nowIso : String) : ServerState × PostSignalResp :=
  if !(req.master_id.truthy && req.ticket.truthy && req.symbol.truthy &&
      req.action.truthy) then
    (st, { status := 400, success := false, signal_id := none
         , error := some "Campos obrigatorios: master_id, ticket, symbol, action" })
  else if !(validAction req.action) then
    (st, { status := 400, success := false, signal_id := none
         , error := some "action deve ser OPEN, CLOSE ou MODIFY" })
  else
    let sig := makeSignal req ts nowIso
    ({ st with signals := st.signals ++ [sig] },
     { status := 200, success := true, signal_id := some sig.id, error := none })

/-- Response of `GET /signal/:slaveId`. -/
structure GetSignalResp where
  status : Nat
  success : Bool
  signals : List Signal
  count : Nat
  error : Option String
deriving DecidableEq, Repr

/-- The `GET /signal/:slaveId` handler: returns the slave's pending signals
and their count (the `!slaveId` guard can only fire on an empty path
parameter). -/
def getSignalEndpoint (st : ServerState) (slaveId : String) : GetSignalResp :=
  if slaveId = "" then
    { status := 400, success := false, signals := [], count := 0
    , error := some "slaveId obrigatorio" }
  else
    let pending := getPendingSignals st slaveId
    { status := 200, success := true, signals := pending
    , count := pending.length, error := none }

/-- Response of `POST /signal/:slaveId/executed`. -/
structure ExecResp where
  status : Nat
  success : Bool
  error : Option String
deriving DecidableEq, Repr

/-- The `POST /signal/:slaveId/executed` handler: requires a non-empty
`slaveId` and a truthy `signal_id`, then records the acknowledgment without
consulting the signal log at all. -/
def postExecuted (st : ServerState) (slaveId : String) (signal_id : Field) :
    ServerState × ExecResp :=
  if slaveId = "" || !signal_id.truthy then
    (st, { status := 400, success := false
         , error := some "slaveId e signal_id obrigatorios" })
  else
    (markAsExecuted st slaveId signal_id,
     { status := 200, success := true, error := none })

/-- One request against the server, as far as it mutates state: a producer
submission, a pending-signals poll or an acknowledgment. -/
inductive Op where
  | submit (req : SignalRequest) (ts nowIso : String)
  | getPending (slaveId : String)
  | ack (slaveId : String) (signal_id : Field)
deriving DecidableEq, Repr

/-- The state after serving one request. -/
def step (st : ServerState) : Op → ServerState
  | .submit req ts nowIso => (postSignal st req ts nowIso).1
  | .getPending _ => st
  | .ack slaveId signal_id => (postExecuted st slaveId signal_id).1

/-- The state after serving a sequence of requests in order. -/
def run (st : ServerState) : List Op → ServerState
  | [] => st
  | op :: rest => run (step st op) rest

/-- A CLOSE submission with `master_id`, `ticket` and `action` present but no
`symbol` key. -/
def reqCloseNoSymbol : SignalRequest :=
  ⟨.str "M1", .num 100, .absent, .absent, .absent, .absent, .absent, .absent,
   .str "CLOSE"⟩

/-- A fully valid OPEN submission. -/
def reqOpenValid : SignalRequest :=
  ⟨.str "M1", .num 100, .str "EURUSD", .absent, .absent, .absent, .absent,
   .absent, .str "OPEN"⟩

/-- An OPEN submission whose `ticket` is the integer 0, all other required
fields present and valid. -/
def reqTicketZero : SignalRequest :=
  ⟨.str "M1", .num 0, .str "EURUSD", .absent, .absent, .absent, .absent,
   .absent, .str "OPEN"⟩

/-- A valid OPEN submission whose `lot`, `open_price`, `sl` and `tp` are all
supplied as the number 0. -/
def reqLotZero : SignalRequest :=
  ⟨.str "M1", .num 100, .str "EURUSD", .absent, .num 0, .num 0, .num 0,
   .num 0, .str "OPEN"⟩

/-- A submission whose `action` is the unknown string "FOO". -/
def reqBadAction : SignalRequest :=
  ⟨.str "M1", .num 100, .str "EURUSD", .absent, .absent, .absent, .absent,
   .absent, .str "FOO"⟩

/-! ### Helper lemmas about the tracker primitives -/

@[simp]
theorem markAsExecuted_executedBySlave (st : ServerState) (c : String) (v : Field) :
    (markAsExecuted st c v).executedBySlave = mapAdd st.executedBySlave c v := rfl

@[simp]
theorem markAsExecuted_signals (st : ServerState) (c : String) (v : Field) :
    (markAsExecuted st c v).signals = st.signals := rfl

theorem fmem_append (v : Field) (s t : List Field) :
    fmem v (s ++ t) = (fmem v s || fmem v t) := by
  induction s with
  | nil => simp [fmem]
  | cons w rest ih => by_cases h : w = v <;> simp [fmem, h, ih]

theorem fmem_setAdd_self (s : List Field) (v : Field) :
    fmem v (setAdd s v) = true := by
  unfold setAdd
  cases h : fmem v s with
  | true => simp [h]
  | false => simp [h, fmem_append, fmem]

theorem setAdd_of_mem (s : List Field) (v : Field) (h : fmem v s = true) :
    setAdd s v = s := by
  simp [setAdd, h]

theorem setAdd_idem (s : List Field) (v : Field) :
    setAdd (setAdd s v) v = setAdd s v :=
  setAdd_of_mem _ _ (fmem_setAdd_self s v)

theorem fmem_setAdd_mono (s : List Field) (v w : Field) (h : fmem w s = true) :
    fmem w (setAdd s v) = true := by
  unfold setAdd
  cases hv : fmem v s with
  | true => simpa using h
  | false => simp [fmem_append, h]

theorem mapFind_mapAdd_self (m : List (String × List Field)) (k : String) (v : Field) :
    mapFind (mapAdd m k v) k = some (setAdd ((mapFind m k).getD []) v) := by
  induction m with
  | nil => simp [mapAdd, mapFind, setAdd, fmem]
  | cons e rest ih =>
    by_cases h : e.1 = k
    · simp [mapAdd, mapFind, h]
    · simp [mapAdd, mapFind, h, ih]

theorem mapFind_mapAdd_ne (m : List (String × List Field)) (k1 k2 : String)
    (v : Field) (h : k1 ≠ k2) :
    mapFind (mapAdd m k1 v) k2 = mapFind m k2 := by
  induction m with
  | nil => simp [mapAdd, mapFind, h]
  | cons e rest ih =>
    by_cases h2 : e.1 = k1
    · have hne : e.1 ≠ k2 := by rw [h2]; exact h
      simp [mapAdd, mapFind, h2, hne, h]
    · simp [mapAdd, mapFind, h2, ih]

theorem mapAdd_idem (m : List (String × List Field)) (k : String) (v : Field) :
    mapAdd (mapAdd m k v) k v = mapAdd m k v := by
  induction m with
  | nil => simp [mapAdd, setAdd, fmem]
  | cons e rest ih =>
    by_cases h : e.1 = k
    · simp [mapAdd, h, setAdd_idem]
    · simp [mapAdd, h, ih]

theorem markAsExecuted_idem (st : ServerState) (c : String) (v : Field) :
    markAsExecuted (markAsExecuted st c v) c v = markAsExecuted st c v := by
  simp [markAsExecuted, mapAdd_idem]

theorem wasExecuted_congr {st1 st2 : ServerState}
    (h : st1.executedBySlave = st2.executedBySlave) (c s : String) :
    wasExecuted st1 c s = wasExecuted st2 c s := by
  unfold wasExecuted
  rw [h]

theorem wasExecuted_eq_fmem (st : ServerState) (c i : String) :
    wasExecuted st c i = fmem (Field.str i) (ackSet st c) := by
  unfold wasExecuted ackSet
  cases mapFind st.executedBySlave c <;> simp [fmem]

theorem wasExecuted_mark_self (st : ServerState) (c s : String) :
    wasExecuted (markAsExecuted st c (.str s)) c s = true := by
  simp [wasExecuted, mapFind_mapAdd_self, fmem_setAdd_self]

theorem wasExecuted_mark_mono (st : ServerState) (c2 : String) (v : Field)
    (c s : String) (h : wasExecuted st c s = true) :
    wasExecuted (markAsExecuted st c2 v) c s = true := by
  by_cases hc : c2 = c
  · subst hc
    unfold wasExecuted at h ⊢
    rw [markAsExecuted_executedBySlave, mapFind_mapAdd_self]
    cases hf : mapFind st.executedBySlave c2 with
    | none => rw [hf] at h; simp at h
    | some set =>
      rw [hf] at h
      simp only [Option.getD_some]
      exact fmem_setAdd_mono _ _ _ (by simpa using h)
  · unfold wasExecuted at h ⊢
    rw [markAsExecuted_executedBySlave, mapFind_mapAdd_ne _ _ _ _ hc]
    exact h

theorem mem_pending_not_executed (st : ServerState) (c : String) (sig : Signal)
    (h : sig ∈ getPendingSignals st c) : wasExecuted st c sig.id = false := by
  unfold getPendingSignals at h
  have h2 := (List.mem_filter.mp h).2
  simpa using h2

/-! ### Helper lemmas about the endpoints -/

theorem postSignal_executedBySlave (st : ServerState) (req : SignalRequest)
    (ts nowIso : String) :
    (postSignal st req ts nowIso).1.executedBySlave = st.executedBySlave := by
  unfold postSignal
  split
  · rfl
  · split
    · rfl
    · rfl

theorem postSignal_success_signals (st : ServerState) (req : SignalRequest)
    (ts nowIso : String) (h : (postSignal st req ts nowIso).2.success = true) :
    (postSignal st req ts nowIso).1.signals =
      st.signals ++ [makeSignal req ts nowIso] := by
  cases h1 : (req.master_id.truthy && req.ticket.truthy && req.symbol.truthy &&
      req.action.truthy) with
  | false => unfold postSignal at h; simp [h1] at h
  | true =>
    cases h2 : validAction req.action with
    | false => unfold postSignal at h; simp [h1, h2] at h
    | true => unfold postSignal; simp [h1, h2]

theorem postExecuted_valid (st : ServerState) (c : String) (sid : Field)
    (hc : c ≠ "") (ht : sid.truthy = true) :
    postExecuted st c sid =
      (markAsExecuted st c sid, ⟨200, true, none⟩) := by
  unfold postExecuted
  simp [hc, ht]

theorem wasExecuted_step_mono (st : ServerState) (op : Op) (c s : String)
    (h : wasExecuted st c s = true) : wasExecuted (step st op) c s = true := by
  cases op with
  | submit req ts nowIso =>
    show wasExecuted (postSignal st req ts nowIso).1 c s = true
    rw [wasExecuted_congr (postSignal_executedBySlave st req ts nowIso) c s]
    exact h
  | getPending slaveId => exact h
  | ack slaveId sid =>
    show wasExecuted (postExecuted st slaveId sid).1 c s = true
    unfold postExecuted
    split
    · exact h
    · exact wasExecuted_mark_mono st slaveId sid c s h

theorem wasExecuted_run_mono (st : ServerState) (ops : List Op) (c s : String)
    (h : wasExecuted st c s = true) : wasExecuted (run st ops) c s = true := by
  induction ops generalizing st with
  | nil => exact h
  | cons op rest ih => exact ih (step st op) (wasExecuted_step_mono st op c s h)

/-! ### Claim theorems -/

/-- Claim C1, counterexample: a CLOSE submission with `master_id`, `ticket`
and `action` present and `symbol` absent is rejected with a 400 validation
error by the `POST /signal` handler, contradicting the claim that it
succeeds — the handler requires `symbol` for every action. -/
theorem C1_counterexample :
    reqCloseNoSymbol.action = Field.str "CLOSE" ∧
    reqCloseNoSymbol.master_id.truthy = true ∧
    reqCloseNoSymbol.ticket.truthy = true ∧
    reqCloseNoSymbol.action.truthy = true ∧
    reqCloseNoSymbol.symbol = Field.absent ∧
    (postSignal initialState reqCloseNoSymbol "0" "t").2.success = false ∧
    (postSignal initialState reqCloseNoSymbol "0" "t").2.status = 400 := by
  refine ⟨rfl, rfl, ?_, rfl, rfl, ?_, ?_⟩ <;> rfl

/-- Claim C1, amended: a submission whose `symbol` is missing or empty fails
with a validation error (400, `success:false`) and leaves the state
unchanged, regardless of the action — CLOSE included; in particular OPEN and
MODIFY submissions without a symbol fail. -/
theorem C1_symbol_required_for_all_actions (st : ServerState)
    (req : SignalRequest) (ts nowIso : String)
    (h : req.symbol.truthy = false) :
    (postSignal st req ts nowIso).2.status = 400 ∧
    (postSignal st req ts nowIso).2.success = false ∧
    (postSignal st req ts nowIso).1 = st := by
  unfold postSignal
  simp [h]

/-- Claim C1, witness: the amended theorem applied to the concrete CLOSE
submission without a symbol. -/
theorem C1_witness :
    reqCloseNoSymbol.symbol.truthy = false ∧
    ((postSignal initialState reqCloseNoSymbol "0" "t").2.status = 400 ∧
     (postSignal initialState reqCloseNoSymbol "0" "t").2.success = false ∧
     (postSignal initialState reqCloseNoSymbol "0" "t").1 = initialState) :=
  ⟨rfl, C1_symbol_required_for_all_actions initialState reqCloseNoSymbol "0" "t" rfl⟩

/-- Claim C2: for every consumer `c` and state, `getPendingSignals` returns a
sublist of the log (hence in submission order), and a signal is in the result
exactly when it is in the log and its id is not in `c`'s acknowledgment
set. -/
theorem C2_pending_characterization (st : ServerState) (c : String) :
    List.Sublist (getPendingSignals st c) st.signals ∧
    ∀ sig : Signal, sig ∈ getPendingSignals st c ↔
      (sig ∈ st.signals ∧ fmem (Field.str sig.id) (ackSet st c) = false) := by
  constructor
  · exact List.filter_sublist st.signals
  · intro sig
    simp [getPendingSignals, List.mem_filter, wasExecuted_eq_fmem]

/-- Claim C9: a submission whose `ticket` is the integer 0 — with
`master_id`, `symbol` and `action` present and valid — is rejected with a 400
validation error, because the JS truthiness presence check treats 0 as
missing; the log stays empty. -/
theorem C9_ticket_zero_rejected :
    reqTicketZero.master_id.truthy = true ∧
    reqTicketZero.symbol.truthy = true ∧
    reqTicketZero.action.truthy = true ∧
    validAction reqTicketZero.action = true ∧
    reqTicketZero.ticket = Field.num 0 ∧
    (postSignal initialState reqTicketZero "0" "t").2.status = 400 ∧
    (postSignal initialState reqTicketZero "0" "t").2.success = false ∧
    (postSignal initialState reqTicketZero "0" "t").1 = initialState := by
  refine ⟨rfl, rfl, rfl, rfl, rfl, ?_, ?_, ?_⟩ <;> rfl

/-- Claim C3: acknowledging `(c, s)` twice reports success both times, the
second call leaves the state exactly as after the first, and the pending list
of `c` after either call contains no signal with id `s` — re-acknowledging is
a no-op success. -/
theorem C3_ack_idempotent (st : ServerState) (c s : String)
    (hc : c ≠ "") (hs : s ≠ "") :
    (postExecuted st c (.str s)).2.success = true ∧
    (postExecuted (postExecuted st c (.str s)).1 c (.str s)).2.success = true ∧
    (postExecuted (postExecuted st c (.str s)).1 c (.str s)).1 =
      (postExecuted st c (.str s)).1 ∧
    ∀ sig ∈ getPendingSignals (postExecuted st c (.str s)).1 c, sig.id ≠ s := by
  have ht : (Field.str s).truthy = true := by simp [Field.truthy, hs]
  rw [postExecuted_valid st c (.str s) hc ht]
  rw [postExecuted_valid _ c (.str s) hc ht]
  refine ⟨rfl, rfl, markAsExecuted_idem st c (.str s), ?_⟩
  intro sig hsig heq
  have hne := mem_pending_not_executed _ _ _ hsig
  rw [heq] at hne
  rw [wasExecuted_mark_self st c s] at hne
  simp at hne

/-- Claim C3, witness: the idempotence theorem applied to consumer "slaveA"
and signal id "sig1" in the initial state. -/
theorem C3_witness :
    ("slaveA" : String) ≠ "" ∧ ("sig1" : String) ≠ "" ∧
    ((postExecuted initialState "slaveA" (.str "sig1")).2.success = true ∧
     (postExecuted (postExecuted initialState "slaveA" (.str "sig1")).1
        "slaveA" (.str "sig1")).2.success = true ∧
     (postExecuted (postExecuted initialState "slaveA" (.str "sig1")).1
        "slaveA" (.str "sig1")).1 =
       (postExecuted initialState "slaveA" (.str "sig1")).1 ∧
     ∀ sig ∈ getPendingSignals
        (postExecuted initialState "slaveA" (.str "sig1")).1 "slaveA",
       sig.id ≠ "sig1") :=
  ⟨by decide, by decide,
   C3_ack_idempotent initialState "slaveA" "sig1" (by decide) (by decide)⟩

/-- Claim C4: acknowledging a signal for consumer `c1` changes neither the
pending list nor the acknowledgment set of any other consumer `c2`. -/
theorem C4_ack_isolation (st : ServerState) (c1 c2 : String) (sid : Field)
    (h : c1 ≠ c2) :
    getPendingSignals (markAsExecuted st c1 sid) c2 = getPendingSignals st c2 ∧
    ackSet (markAsExecuted st c1 sid) c2 = ackSet st c2 := by
  have hf : mapFind (mapAdd st.executedBySlave c1 sid) c2 =
      mapFind st.executedBySlave c2 := mapFind_mapAdd_ne _ _ _ _ h
  have hw : ∀ i, wasExecuted (markAsExecuted st c1 sid) c2 i =
      wasExecuted st c2 i := by
    intro i
    unfold wasExecuted
    rw [markAsExecuted_executedBySlave, hf]
  constructor
  · unfold getPendingSignals
    rw [markAsExecuted_signals]
    apply List.filter_congr
    intro x _
    rw [hw]
  · unfold ackSet
    rw [markAsExecuted_executedBySlave, hf]

/-- Claim C4, witness: the isolation theorem applied to consumers "slaveA"
and "slaveB" and signal id "sig1" in the initial state. -/
theorem C4_witness :
    ("slaveA" : String) ≠ "slaveB" ∧
    (getPendingSignals (markAsExecuted initialState "slaveA" (.str "sig1"))
        "slaveB" = getPendingSignals initialState "slaveB" ∧
     ackSet (markAsExecuted initialState "slaveA" (.str "sig1")) "slaveB" =
       ackSet initialState "slaveB") :=
  ⟨by decide,
   C4_ack_isolation initialState "slaveA" "slaveB" (.str "sig1") (by decide)⟩

/-- Claim C6: once `(c, s)` is acknowledged, no sequence of further requests
(submissions, polls, acknowledgments) ever removes the record — the pair
stays acknowledged and no signal with id `s` ever reappears in `c`'s pending
list. -/
theorem C6_acknowledged_is_terminal (st : ServerState) (c s : String)
    (ops : List Op) (h : wasExecuted st c s = true) :
    wasExecuted (run st ops) c s = true ∧
    ∀ sig ∈ getPendingSignals (run st ops) c, sig.id ≠ s := by
  have hr := wasExecuted_run_mono st ops c s h
  refine ⟨hr, ?_⟩
  intro sig hsig heq
  have hne := mem_pending_not_executed _ _ _ hsig
  rw [heq] at hne
  rw [hr] at hne
  simp at hne

/-- Claim C6, witness: the terminality theorem applied to a state where
"slaveA" has acknowledged "sig1", running a further acknowledgment by another
slave, a poll and a re-acknowledgment. -/
theorem C6_witness :
    wasExecuted (markAsExecuted initialState "slaveA" (.str "sig1"))
      "slaveA" "sig1" = true ∧
    (wasExecuted
        (run (markAsExecuted initialState "slaveA" (.str "sig1"))
          [Op.ack "slaveB" (.str "sig2"), Op.getPending "slaveA",
           Op.ack "slaveA" (.str "sig1")])
        "slaveA" "sig1" = true ∧
     ∀ sig ∈ getPendingSignals
        (run (markAsExecuted initialState "slaveA" (.str "sig1"))
          [Op.ack "slaveB" (.str "sig2"), Op.getPending "slaveA",
           Op.ack "slaveA" (.str "sig1")])
        "slaveA",
       sig.id ≠ "sig1") :=
  ⟨by decide,
   C6_acknowledged_is_terminal (markAsExecuted initialState "slaveA" (.str "sig1"))
     "slaveA" "sig1"
     [Op.ack "slaveB" (.str "sig2"), Op.getPending "slaveA",
      Op.ack "slaveA" (.str "sig1")]
     (by decide)⟩

/-- Claim C7: acknowledging a signal id that belongs to no signal in the log
still succeeds (200, `success:true`) and is recorded in the consumer's
acknowledgment set — the handler never cross-checks the log. -/
theorem C7_unknown_signal_ack (st : ServerState) (c s : String)
    (hc : c ≠ "") (hs : s ≠ "")
    (_hunknown : ∀ sig ∈ st.signals, sig.id ≠ s) :
    (postExecuted st c (.str s)).2.success = true ∧
    (postExecuted st c (.str s)).2.status = 200 ∧
    (postExecuted st c (.str s)).2.error = none ∧
    wasExecuted (postExecuted st c (.str s)).1 c s = true := by
  have ht : (Field.str s).truthy = true := by simp [Field.truthy, hs]
  rw [postExecuted_valid st c (.str s) hc ht]
  exact ⟨rfl, rfl, rfl, wasExecuted_mark_self st c s⟩

/-- Claim C7, witness: the theorem applied to the empty log, where the id
"ghost" certainly belongs to no signal. -/
theorem C7_witness :
    ("slaveA" : String) ≠ "" ∧ ("ghost" : String) ≠ "" ∧
    (∀ sig ∈ initialState.signals, sig.id ≠ "ghost") ∧
    ((postExecuted initialState "slaveA" (.str "ghost")).2.success = true ∧
     (postExecuted initialState "slaveA" (.str "ghost")).2.status = 200 ∧
     (postExecuted initialState "slaveA" (.str "ghost")).2.error = none ∧
     wasExecuted (postExecuted initialState "slaveA" (.str "ghost")).1
       "slaveA" "ghost" = true) :=
  ⟨by decide, by decide, by simp [initialState],
   C7_unknown_signal_ack initialState "slaveA" "ghost" (by decide) (by decide)
     (by simp [initialState])⟩

/-- Claim C8: whenever `master_id`, `ticket` or `action` is missing (falsy),
or `action` is not one of OPEN/CLOSE/MODIFY, the `POST /signal` handler
responds 400 with `success:false` and the state — in particular the log — is
unchanged. -/
theorem C8_submit_validation (st : ServerState) (req : SignalRequest)
    (ts nowIso : String)
    (h : req.master_id.truthy = false ∨ req.ticket.truthy = false ∨
         req.action.truthy = false ∨ validAction req.action = false) :
    (postSignal st req ts nowIso).2.status = 400 ∧
    (postSignal st req ts nowIso).2.success = false ∧
    (postSignal st req ts nowIso).1 = st := by
  cases h1 : (req.master_id.truthy && req.ticket.truthy && req.symbol.truthy &&
      req.action.truthy) with
  | false =>
    unfold postSignal
    simp [h1]
  | true =>
    have h1s := h1
    simp only [Bool.and_eq_true] at h1s
    have hv : validAction req.action = false := by
      rcases h with h | h | h | h
      · rw [h1s.1.1.1] at h; cases h
      · rw [h1s.1.1.2] at h; cases h
      · rw [h1s.2] at h; cases h
      · exact h
    unfold postSignal
    simp [h1, hv]

/-- Claim C8, witness: the validation theorem applied to a submission whose
`action` is the invalid string "FOO". -/
theorem C8_witness :
    (reqBadAction.master_id.truthy = false ∨ reqBadAction.ticket.truthy = false ∨
     reqBadAction.action.truthy = false ∨ validAction reqBadAction.action = false) ∧
    ((postSignal initialState reqBadAction "0" "t").2.status = 400 ∧
     (postSignal initialState reqBadAction "0" "t").2.success = false ∧
     (postSignal initialState reqBadAction "0" "t").1 = initialState) :=
  ⟨Or.inr (Or.inr (Or.inr rfl)),
   C8_submit_validation initialState reqBadAction "0" "t"
     (Or.inr (Or.inr (Or.inr rfl)))⟩

/-- Claim C5: immediately after a successful submission whose generated id is
fresh, the pending list of every consumer `c` that has not acknowledged that
id contains the newly created signal exactly once. -/
theorem C5_new_signal_pending_once (st : ServerState) (req : SignalRequest)
    (ts nowIso : String) (c : String)
    (hok : (postSignal st req ts nowIso).2.success = true)
    (hfresh : ∀ sig ∈ st.signals, sig.id ≠ (makeSignal req ts nowIso).id)
    (hnotack : wasExecuted st c (makeSignal req ts nowIso).id = false) :
    (getPendingSignals (postSignal st req ts nowIso).1 c).countP
      (fun x => decide (x = makeSignal req ts nowIso)) = 1 := by
  have hsig := postSignal_success_signals st req ts nowIso hok
  have htr := postSignal_executedBySlave st req ts nowIso
  have hwcongr : ∀ i, wasExecuted (postSignal st req ts nowIso).1 c i =
      wasExecuted st c i := fun i => wasExecuted_congr htr c i
  unfold getPendingSignals
  rw [hsig, List.filter_append, List.countP_append]
  have hleft : (st.signals.filter
      (fun s => !(wasExecuted (postSignal st req ts nowIso).1 c s.id))).countP
      (fun x => decide (x = makeSignal req ts nowIso)) = 0 := by
    rw [List.countP_eq_zero]
    intro a ha
    have hmem := (List.mem_filter.mp ha).1
    have hne := hfresh a hmem
    simp only [decide_eq_true_eq]
    intro heq
    rw [heq] at hne
    exact hne rfl
  have hright : ([makeSignal req ts nowIso].filter
      (fun s => !(wasExecuted (postSignal st req ts nowIso).1 c s.id))) =
      [makeSignal req ts nowIso] := by
    simp [List.filter, hwcongr, hnotack]
  rw [hleft, hright]
  simp

/-- Claim C5, witness: the theorem applied to a valid OPEN submission into
the empty initial state and the fresh consumer "slaveA". -/
theorem C5_witness :
    (postSignal initialState reqOpenValid "7" "t").2.success = true ∧
    (∀ sig ∈ initialState.signals,
       sig.id ≠ (makeSignal reqOpenValid "7" "t").id) ∧
    wasExecuted initialState "slaveA" (makeSignal reqOpenValid "7" "t").id = false ∧
    (getPendingSignals (postSignal initialState reqOpenValid "7" "t").1
        "slaveA").countP
      (fun x => decide (x = makeSignal reqOpenValid "7" "t")) = 1 :=
  ⟨rfl, by simp [initialState], rfl,
   C5_new_signal_pending_once initialState reqOpenValid "7" "t" "slaveA"
     rfl (by simp [initialState]) rfl⟩

/-- Claim C10: on any submission, a `lot` that parses to 0 or NaN is stored
as the default 0.01 — indistinguishable from an absent lot — while
`open_price`, `sl` and `tp` supplied as 0 are stored as 0; on success the
stored signal is exactly the one appended to the log. -/
theorem C10_lot_zero_default (st : ServerState) (req : SignalRequest)
    (ts nowIso : String)
    (hok : (postSignal st req ts nowIso).2.success = true)
    (hlot : jsParseFloat req.lot = none ∨ jsParseFloat req.lot = some 0) :
    (postSignal st req ts nowIso).1.signals =
      st.signals ++ [makeSignal req ts nowIso] ∧
    (makeSignal req ts nowIso).lot = 1 / 100 ∧
    (jsParseFloat req.open_price = some 0 →
      (makeSignal req ts nowIso).open_price = 0) ∧
    (jsParseFloat req.sl = some 0 → (makeSignal req ts nowIso).sl = 0) ∧
    (jsParseFloat req.tp = some 0 → (makeSignal req ts nowIso).tp = 0) := by
  refine ⟨postSignal_success_signals st req ts nowIso hok, ?_, ?_, ?_, ?_⟩
  · rcases hlot with h | h <;> simp [makeSignal, jsOr, h]
  · intro h; simp [makeSignal, jsOr, h]
  · intro h; simp [makeSignal, jsOr, h]
  · intro h; simp [makeSignal, jsOr, h]

/-- Claim C10, witness: the theorem applied to a valid OPEN submission whose
`lot`, `open_price`, `sl` and `tp` are all the number 0. -/
theorem C10_witness :
    (postSignal initialState reqLotZero "7" "t").2.success = true ∧
    (jsParseFloat reqLotZero.lot = none ∨ jsParseFloat reqLotZero.lot = some 0) ∧
    ((postSignal initialState reqLotZero "7" "t").1.signals =
       initialState.signals ++ [makeSignal reqLotZero "7" "t"] ∧
     (makeSignal reqLotZero "7" "t").lot = 1 / 100 ∧
     (jsParseFloat reqLotZero.open_price = some 0 →
       (makeSignal reqLotZero "7" "t").open_price = 0) ∧
     (jsParseFloat reqLotZero.sl = some 0 →
       (makeSignal reqLotZero "7" "t").sl = 0) ∧
     (jsParseFloat reqLotZero.tp = some 0 →
       (makeSignal reqLotZero "7" "t").tp = 0)) :=
  ⟨rfl, Or.inr rfl,
   C10_lot_zero_default initialState reqLotZero "7" "t" rfl (Or.inr rfl)⟩

end TradeCopier
